import Mathlib

/-!
# Verification of the totvs/go-sdk multi-issuer JWT bearer-token authorization core

Shallow embedding, translated from the Go sources:

* `auth/issuer/issuer.go` (package `issuer`): the `Claims` interface, `ClaimsBase`
  struct and its accessor methods, `IssuerBase`;
* the RAC / Identity / Google issuer constructors (`rac.NewRac`,
  `identity.NewIdentity`, `google.NewGoogle`) and the `racClaims` overrides;
* `auth/internal/authorization_bearer_token` (package
  `authorization_bearer_token`): `IsValidBearerToken`, `findIssuer`, `validJWT`,
  `parseJWT`, `extractTokenFromBearer`, `splitAuthHeader`,
  `extractTokenFromCookie`;
* package `auth`: `HTTPAuthorizationBearerTokenMiddleware`,
  `GetIssuerClaimsFromContext`, `HasRole`;
* `auth/middleware/middleware.go` (package `middleware`): the older
  `HTTPAuthorizationBearerTokenMiddleware` and `GetIssuerClaimsFromContext`.

Go `error` values produced by `fmt.Errorf` are modelled as `String` messages
(`Except String`); `%v`/`%w` wrapping concatenates messages exactly as `fmt`
does.  Collaborator capabilities that the specification places outside the
core (base64url decoding of the payload segment, JSON deserialization of the
issuer peek, the remote-JWKS verifier) are parameters of the embedding.
-/

namespace GoSdkAuth

/-! ## Claims model (`auth/issuer/issuer.go`, struct `ClaimsBase`)

Go struct fields that are absent from the JSON payload keep their zero
values: `""` for `string`, `0` for `int64`, and `nil` for `[]string`.
`roles : Option (List String)` models the Go slice, `none` being the `nil`
slice so that "absent" and "present but empty" stay distinguishable, exactly
as they are for a Go `[]string`. -/

structure ClaimsBase where
  fullName : String
  notBefore : Int
  expiresAt : Int
  issuer : String
  audience : String
  subject : String
  issuedAt : Int
  clientID : String
  tenantIdpID : String
  companyID : String
  roles : Option (List String)
  email : String
  deriving DecidableEq, Repr

/-- Go zero value of `ClaimsBase` (what `var claims identityClaims` starts from). -/
def ClaimsBase.zero : ClaimsBase :=
  { fullName := "", notBefore := 0, expiresAt := 0, issuer := "", audience := ""
    subject := "", issuedAt := 0, clientID := "", tenantIdpID := "", companyID := ""
    roles := none, email := "" }

/-- `func (i ClaimsBase) ClaimRoles() []string`. -/
def ClaimsBase.claimRoles (i : ClaimsBase) : List String :=
  match i.roles with
  | none => []
  | some rs => rs

/-- `func (i ClaimsBase) ClaimFullName() string`. -/
def ClaimsBase.claimFullName (i : ClaimsBase) : String :=
  if i.fullName = "" then "-" else i.fullName

/-- `func (i ClaimsBase) ClaimEmail() string`. -/
def ClaimsBase.claimEmail (i : ClaimsBase) : String :=
  if i.email = "" then "-" else i.email

/-- `func (i ClaimsBase) ClaimTenantIdpID() string`. -/
def ClaimsBase.claimTenantIdpID (i : ClaimsBase) : String :=
  if i.tenantIdpID = "" then "-" else i.tenantIdpID

/-- `func (i ClaimsBase) ClaimCompanyID() string`. -/
def ClaimsBase.claimCompanyID (i : ClaimsBase) : String :=
  if i.companyID = "" then "-" else i.companyID

/-- `func (i ClaimsBase) ClaimClientID() string`. -/
def ClaimsBase.claimClientID (i : ClaimsBase) : String :=
  if i.clientID = "" then "-" else i.clientID

/-- `func (i ClaimsBase) ClaimAudience() string`. -/
def ClaimsBase.claimAudience (i : ClaimsBase) : String :=
  if i.audience = "" then "-" else i.audience

/-- `func (i ClaimsBase) ClaimIssuer() string`. -/
def ClaimsBase.claimIssuer (i : ClaimsBase) : String :=
  if i.issuer = "" then "-" else i.issuer

/-! ## RAC claims override (`rac.go`, struct `racClaims`)

`racClaims` embeds `ClaimsBase` and declares an outer field
`TenantIdpID string` tagged `json:"http://www.tnf.com/identity/claims/tenantId"`.
The outer field (depth 0) shadows the promoted `ClaimsBase.TenantIdpID`
(depth 1), so the overriding methods below read the vendor-keyed field. -/

structure RacClaims where
  base : ClaimsBase
  /-- JSON key `http://www.tnf.com/identity/claims/tenantId`. -/
  tenantIdpID : String
  deriving DecidableEq, Repr

/-- `func (i racClaims) ClaimTenantIdpID() string` — reads the vendor-keyed field. -/
def RacClaims.claimTenantIdpID (i : RacClaims) : String :=
  if i.tenantIdpID = "" then "-" else i.tenantIdpID

/-- `func (i racClaims) ClaimCompanyID() string` — also reads the vendor-keyed
`TenantIdpID` field (not `CompanyID`). -/
def RacClaims.claimCompanyID (i : RacClaims) : String :=
  if i.tenantIdpID = "" then "-" else i.tenantIdpID

/-- Promoted method: `racClaims` inherits `ClaimRoles` from the embedded `ClaimsBase`. -/
def RacClaims.claimRoles (i : RacClaims) : List String :=
  i.base.claimRoles

/-! ## The `issuer.Claims` interface

Its implementors in the repository are `identityClaims`, `googleClaims`
(both plain wrappers around `ClaimsBase`) and `racClaims`. -/

inductive ClaimsVal where
  | identity (c : ClaimsBase)
  | google (c : ClaimsBase)
  | rac (c : RacClaims)
  deriving DecidableEq, Repr

/-- Dynamic dispatch of `ClaimRoles()` through the `issuer.Claims` interface.
`identityClaims` and `googleClaims` use the promoted `ClaimsBase.ClaimRoles`;
`racClaims` promotes it from its embedded `ClaimsBase` as well. -/
def ClaimsVal.claimRoles : ClaimsVal → List String
  | .identity c => c.claimRoles
  | .google c => c.claimRoles
  | .rac c => c.claimRoles

end GoSdkAuth

namespace GoSdkAuth

/-- **C4** — For a `ClaimsBase` built from a payload in which all optional fields
are absent or empty (absent JSON fields leave the Go zero values: `""` strings
and a `nil` or empty `roles` slice), every string-returning accessor
(`ClaimFullName`, `ClaimEmail`, `ClaimTenantIdpID`, `ClaimCompanyID`,
`ClaimClientID`, `ClaimAudience`, `ClaimIssuer`) returns the literal string
`"-"`, and `ClaimRoles` returns the empty list (never a `nil`-like value:
the `nil` slice is mapped to `[]`). -/
theorem claimsBase_defaults (c : ClaimsBase)
    (hf : c.fullName = "") (he : c.email = "") (ht : c.tenantIdpID = "")
    (hc : c.companyID = "") (hcl : c.clientID = "") (ha : c.audience = "")
    (hi : c.issuer = "") (hr : c.roles = none ∨ c.roles = some []) :
    c.claimFullName = "-" ∧ c.claimEmail = "-" ∧ c.claimTenantIdpID = "-" ∧
    c.claimCompanyID = "-" ∧ c.claimClientID = "-" ∧ c.claimAudience = "-" ∧
    c.claimIssuer = "-" ∧ c.claimRoles = [] := by
  refine ⟨?_, ?_, ?_, ?_, ?_, ?_, ?_, ?_⟩ <;>
    simp [ClaimsBase.claimFullName, ClaimsBase.claimEmail, ClaimsBase.claimTenantIdpID,
      ClaimsBase.claimCompanyID, ClaimsBase.claimClientID, ClaimsBase.claimAudience,
      ClaimsBase.claimIssuer, ClaimsBase.claimRoles, hf, he, ht, hc, hcl, ha, hi]
  rcases hr with h | h <;> simp [h]

/-- Witness for `claimsBase_defaults`: the all-absent claims object. -/
theorem claimsBase_defaults_witness :
    ClaimsBase.zero.claimFullName = "-" ∧ ClaimsBase.zero.claimEmail = "-" ∧
    ClaimsBase.zero.claimTenantIdpID = "-" ∧ ClaimsBase.zero.claimCompanyID = "-" ∧
    ClaimsBase.zero.claimClientID = "-" ∧ ClaimsBase.zero.claimAudience = "-" ∧
    ClaimsBase.zero.claimIssuer = "-" ∧ ClaimsBase.zero.claimRoles = [] :=
  claimsBase_defaults ClaimsBase.zero rfl rfl rfl rfl rfl rfl rfl (Or.inl rfl)

/-- **C5** — On RAC claims, both `ClaimTenantIdpID` and `ClaimCompanyID` return
the value decoded from the vendor-specific JSON key
`"http://www.tnf.com/identity/claims/tenantId"` (the literal `"-"` when that
key is absent or empty, i.e. when the field holds the zero value `""`),
ignoring the base `tenantIdpId`/`companyId` fields entirely; consequently
`ClaimCompanyID()` always equals `ClaimTenantIdpID()` on RAC claims. -/
theorem racClaims_tenant_company (rc : RacClaims) :
    rc.claimTenantIdpID = (if rc.tenantIdpID = "" then "-" else rc.tenantIdpID) ∧
    rc.claimCompanyID = rc.claimTenantIdpID ∧
    (∀ b : ClaimsBase, (RacClaims.mk b rc.tenantIdpID).claimTenantIdpID = rc.claimTenantIdpID ∧
      (RacClaims.mk b rc.tenantIdpID).claimCompanyID = rc.claimCompanyID) := by
  refine ⟨rfl, rfl, fun b => ⟨rfl, rfl⟩⟩

end GoSdkAuth

namespace GoSdkAuth

/-! ## Issuer matching (`IssuerBase.MatchIssuer` and the three compiled patterns)

`func (r IssuerBase) MatchIssuer(iss string) bool { return r.IssuerRegex.MatchString(iss) }`

The three patterns, from `identity.NewIdentity`, `rac.NewRac` and
`google.NewGoogle`:

* Identity: `(?m)^\*\.fluig\.io$`
* RAC:      `(?m)^https://.+\.rac\..*totvs\.app/totvs\.rac$`
* Google:   `(?m)^https://accounts\.google\.com$`

Go regexp semantics embedded here:

* `MatchString` reports whether the string *contains* a match (a search, not a
  full-string match);
* under the `(?m)` flag, `^` matches at the start of the text and right after
  every `\n`, and `$` matches at the end of the text and right before every
  `\n`;
* `.` (and hence `.+`, `.*`) never matches `\n`, and none of the literals in
  these patterns is `\n`.

Consequently, for each of these `^…$`-delimited patterns, the whole pattern
body must lie inside a single `\n`-separated line and span that entire line:
`MatchString s` holds iff some element of `s` split on `'\n'` fully matches
the pattern body.  Each pattern body is transcribed below as a decidable
full-line predicate over `List Char`. -/

/-- Split a character list on `'\n'` (the `(?m)` line structure of the input). -/
def lineSplit : List Char → List (List Char)
  | [] => [[]]
  | c :: rest =>
    match lineSplit rest with
    | [] => [[c]]
    | l :: ls => if c = '\n' then [] :: l :: ls else (c :: l) :: ls

/-- Full-line match of the Identity pattern body `\*\.fluig\.io`:
the line is exactly the literal `*.fluig.io`. -/
def identityFullLine (l : List Char) : Bool :=
  l == "*.fluig.io".data

/-- Full-line match of the Google pattern body `https://accounts\.google\.com`:
the line is exactly the literal `https://accounts.google.com`. -/
def googleFullLine (l : List Char) : Bool :=
  l == "https://accounts.google.com".data

/-- Full-line match of the RAC pattern body
`https://.+\.rac\..*totvs\.app/totvs\.rac`: the line decomposes as
`"https://" ++ a ++ ".rac." ++ b ++ "totvs.app/totvs.rac"` with `a` nonempty
(`a` and `b` arbitrary newline-free segments; lines contain no newline).
Equivalently — searched executably below — the line starts with `https://`,
the remainder ends with the 19-character literal `totvs.app/totvs.rac`, and
`.rac.` occurs at some offset `i ≥ 1` of the remainder with `i + 5` not past
the start of that final literal (`i + 24 ≤ length`). -/
def racFullLine (l : List Char) : Bool :=
  "https://".data.isPrefixOf l &&
    (let rest := l.drop 8
     "totvs.app/totvs.rac".data.isSuffixOf rest &&
       (List.range rest.length).any fun i =>
         decide (1 ≤ i) && decide (i + 24 ≤ rest.length) &&
           ((rest.drop i).take 5 == ".rac.".data))

/-- Go's `regexp.MatchString` for a `(?m)^…$` pattern whose body cannot match
`'\n'`: some line of the subject fully matches the body. -/
def goMatchMultiline (fullLine : List Char → Bool) (s : String) : Bool :=
  (lineSplit s.data).any fullLine

/-- `MatchIssuer` of the issuer built by `identity.NewIdentity`. -/
def identityMatchIssuer (s : String) : Bool :=
  goMatchMultiline identityFullLine s

/-- `MatchIssuer` of the issuer built by `rac.NewRac`. -/
def racMatchIssuer (s : String) : Bool :=
  goMatchMultiline racFullLine s

/-- `MatchIssuer` of the issuer built by `google.NewGoogle`. -/
def googleMatchIssuer (s : String) : Bool :=
  goMatchMultiline googleFullLine s

/-! Spec-side definitions (following the specification's words, for the
refinement comparison in C6): an issuer string "matches the documented regex
anchor-to-anchor" when the *whole* string matches the pattern body from its
first character to its last.  Since no atom of these patterns matches `'\n'`,
a whole-string match requires the string to be newline-free. -/

/-- Spec-side: the whole issuer string matches the Identity pattern anchor-to-anchor. -/
def identitySpecFullMatch (s : String) : Bool :=
  s.data == "*.fluig.io".data

/-- Spec-side: the whole issuer string matches the Google pattern anchor-to-anchor. -/
def googleSpecFullMatch (s : String) : Bool :=
  s.data == "https://accounts.google.com".data

/-- Spec-side: the whole issuer string matches the RAC pattern anchor-to-anchor. -/
def racSpecFullMatch (s : String) : Bool :=
  !s.data.contains '\n' && racFullLine s.data

end GoSdkAuth

namespace GoSdkAuth

/-- A newline-free character list is a single line. -/
theorem lineSplit_of_no_newline (cs : List Char) (h : '\n' ∉ cs) :
    lineSplit cs = [cs] := by
  induction cs with
  | nil => rfl
  | cons c rest ih =>
    have hc : c ≠ '\n' := fun hc => h (hc ▸ List.mem_cons_self c rest)
    have hr : '\n' ∉ rest := fun hm => h (List.mem_cons_of_mem c hm)
    simp [lineSplit, ih hr, hc]

/-- On newline-free subjects, the `(?m)` search collapses to a full-line match. -/
theorem goMatchMultiline_of_no_newline (f : List Char → Bool) (s : String)
    (h : '\n' ∉ s.data) : goMatchMultiline f s = f s.data := by
  simp [goMatchMultiline, lineSplit_of_no_newline s.data h]

end GoSdkAuth

namespace GoSdkAuth

/-- **C6, counterexample** — `MatchIssuer` is compiled with the `(?m)` flag and
run via `MatchString` (a search), so the Identity issuer accepts the issuer
string `"x\n*.fluig.io"`, whose second line is `*.fluig.io`, even though that
whole string does *not* match the documented regex anchor-to-anchor.  This
refutes "`MatchIssuer` returns true only for issuer strings matching that
issuer's documented regex anchor-to-anchor". -/
theorem issuer_match_multiline_cex :
    identityMatchIssuer "x\n*.fluig.io" = true ∧
    identitySpecFullMatch "x\n*.fluig.io" = false := by
  constructor <;> decide

/-- **C6, amended** — For newline-free issuer strings each issuer's
`MatchIssuer` coincides with anchor-to-anchor matching of its documented
regex, the three issuers' anchor-to-anchor pattern spaces are pairwise
disjoint, and the concrete examples hold: the RAC issuer matches
`"https://admin.rac.dev.totvs.app/totvs.rac"` and rejects `"*.fluig.io"`,
while the Identity issuer matches `"*.fluig.io"`.  (On strings containing
newlines, `MatchIssuer` instead accepts whenever *some line* matches
anchor-to-anchor, per the `(?m)` flag and `MatchString` search semantics.) -/
theorem issuer_match_amended (s : String) (h : '\n' ∉ s.data) :
    (identityMatchIssuer s = identitySpecFullMatch s ∧
     racMatchIssuer s = racSpecFullMatch s ∧
     googleMatchIssuer s = googleSpecFullMatch s) ∧
    ((identitySpecFullMatch s = true → racSpecFullMatch s = false ∧ googleSpecFullMatch s = false) ∧
     (googleSpecFullMatch s = true → racSpecFullMatch s = false ∧ identitySpecFullMatch s = false) ∧
     (racSpecFullMatch s = true → identitySpecFullMatch s = false ∧ googleSpecFullMatch s = false)) ∧
    (racMatchIssuer "https://admin.rac.dev.totvs.app/totvs.rac" = true ∧
     racMatchIssuer "*.fluig.io" = false ∧
     identityMatchIssuer "*.fluig.io" = true) := by
  have hcontains : s.data.contains '\n' = false := by simpa using h
  have hid : identitySpecFullMatch s = true ↔ s.data = "*.fluig.io".data := by
    simp [identitySpecFullMatch]
  have hgo : googleSpecFullMatch s = true ↔ s.data = "https://accounts.google.com".data := by
    simp [googleSpecFullMatch]
  refine ⟨⟨?_, ?_, ?_⟩, ⟨?_, ?_, ?_⟩, by decide, by decide, by decide⟩
  · rw [identityMatchIssuer, goMatchMultiline_of_no_newline _ _ h]; rfl
  · rw [racMatchIssuer, goMatchMultiline_of_no_newline _ _ h,
      racSpecFullMatch, hcontains]
    rfl
  · rw [googleMatchIssuer, goMatchMultiline_of_no_newline _ _ h]; rfl
  · intro hi
    have hs := hid.mp hi
    constructor
    · simp [racSpecFullMatch, hs]
      decide
    · simp [googleSpecFullMatch, hs]
  · intro hg
    have hs := hgo.mp hg
    constructor
    · simp [racSpecFullMatch, hs]
      decide
    · simp [identitySpecFullMatch, hs]
  · intro hr
    constructor
    · rcases hb : identitySpecFullMatch s with _ | _
      · rfl
      · exfalso
        have hs := hid.mp hb
        rw [racSpecFullMatch, hs] at hr
        exact absurd hr (by decide)
    · rcases hb : googleSpecFullMatch s with _ | _
      · rfl
      · exfalso
        have hs := hgo.mp hb
        rw [racSpecFullMatch, hs] at hr
        exact absurd hr (by decide)

/-- Witness for `issuer_match_amended` at the RAC example string. -/
theorem issuer_match_amended_witness :
    racMatchIssuer "https://admin.rac.dev.totvs.app/totvs.rac" =
      racSpecFullMatch "https://admin.rac.dev.totvs.app/totvs.rac" ∧
    racMatchIssuer "https://admin.rac.dev.totvs.app/totvs.rac" = true :=
  ⟨(issuer_match_amended "https://admin.rac.dev.totvs.app/totvs.rac" (by decide)).1.2.1,
   (issuer_match_amended "https://admin.rac.dev.totvs.app/totvs.rac" (by decide)).2.2.1⟩

end GoSdkAuth

namespace GoSdkAuth

/-! ## Request context (`context.Context` values under `ISSUER_CLAIMS_KEY`)

`context.WithValue` nests: lookup returns the innermost value for the key,
`nil` when the key is absent.  The context is modelled as a list of
key/value pairs, innermost first.  `ISSUER_CLAIMS_KEY IssuerClaimsKey =
"issuer-claims"` is a private typed key, modelled by the dedicated
constructor `CtxKey.issuerClaims`; other keys and non-`issuer.Claims` stored
values (for the "wrong type" case of C9) get their own constructors. -/

inductive CtxKey where
  | issuerClaims
  | other (name : String)
  deriving DecidableEq, Repr

inductive CtxVal where
  | claims (c : ClaimsVal)
  | str (s : String)
  | int (n : Int)
  deriving DecidableEq, Repr

def Ctx := List (CtxKey × CtxVal)

/-- `ctx.Value(key)`: innermost value stored under `key`, `nil` when absent. -/
def Ctx.value (ctx : Ctx) (k : CtxKey) : Option CtxVal :=
  match List.find? (fun kv => kv.1 = k) ctx with
  | none => none
  | some kv => some kv.2

/-- `context.WithValue(ctx, key, val)`. -/
def Ctx.withValue (ctx : Ctx) (k : CtxKey) (v : CtxVal) : Ctx :=
  (k, v) :: ctx

/-- Package `auth` (and `auth/auth.go`) `GetIssuerClaimsFromContext`:

```go
claims, ok := ctx.Value(ISSUER_CLAIMS_KEY).(issuer.Claims)
if !ok { return nil }
return claims
```

The comma-ok type assertion yields `ok = false` both when the stored value is
`nil` (key absent) and when it has a non-`issuer.Claims` dynamic type; the
function then returns `nil`, modelled as `none`. -/
def getIssuerClaimsFromContext (ctx : Ctx) : Option ClaimsVal :=
  match ctx.value CtxKey.issuerClaims with
  | some (CtxVal.claims c) => some c
  | _ => none

/-- Package `middleware` (`auth/middleware/middleware.go`)
`GetIssuerClaimsFromContext`:

```go
claims := ctx.Value(ISSUER_CLAIMS_KEY).(issuer.Claims)
return claims
```

The *unchecked* type assertion panics when the stored value is `nil` (key
absent) or has a non-`issuer.Claims` dynamic type.  The panic is modelled as
the `Except.error` constructor carrying the Go runtime error text. -/
def middlewareGetIssuerClaimsFromContext (ctx : Ctx) : Except String ClaimsVal :=
  match ctx.value CtxKey.issuerClaims with
  | some (CtxVal.claims c) => Except.ok c
  | some _ => Except.error "panic: interface conversion"
  | none => Except.error "panic: interface conversion: interface \x7b\x7d is nil, not issuer.Claims"

/-- Package `auth` `HasRole`:

```go
claims := GetIssuerClaimsFromContext(ctx)
if claims == nil { return false }
return slices.Contains(claims.ClaimRoles(), role)
```

(`auth/auth.go` carries the identical function.) `slices.Contains` compares
strings with `==`, i.e. exact, case-sensitive equality. -/
def hasRole (ctx : Ctx) (role : String) : Bool :=
  match getIssuerClaimsFromContext ctx with
  | none => false
  | some claims => claims.claimRoles.contains role

end GoSdkAuth

namespace GoSdkAuth

/-- **C8** — `HasRole(ctx, role)` returns false when no claims are present in
the context, and otherwise returns true iff `role` is a member of the claims'
`ClaimRoles()` sequence under exact, case-sensitive string comparison. -/
theorem hasRole_spec (ctx : Ctx) (role : String) :
    (getIssuerClaimsFromContext ctx = none → hasRole ctx role = false) ∧
    (∀ c, getIssuerClaimsFromContext ctx = some c →
      (hasRole ctx role = true ↔ role ∈ c.claimRoles)) := by
  constructor
  · intro h
    simp [hasRole, h]
  · intro c h
    simp [hasRole, h]

/-- Witness for `hasRole_spec`: no-claims context gives false; with roles
`["user"]` the role `"admin"` is refused; with roles `["admin", "user"]` it is
accepted (exact, case-sensitive comparison). -/
theorem hasRole_spec_witness :
    hasRole [] "admin" = false ∧
    hasRole [(CtxKey.issuerClaims,
      CtxVal.claims (ClaimsVal.identity { ClaimsBase.zero with roles := some ["user"] }))]
      "admin" = false ∧
    hasRole [(CtxKey.issuerClaims,
      CtxVal.claims (ClaimsVal.identity { ClaimsBase.zero with roles := some ["admin", "user"] }))]
      "admin" = true := by
  refine ⟨(hasRole_spec [] "admin").1 rfl, ?_, ?_⟩
  · have h := ((hasRole_spec [(CtxKey.issuerClaims,
      CtxVal.claims (ClaimsVal.identity { ClaimsBase.zero with roles := some ["user"] }))]
      "admin").2 (ClaimsVal.identity { ClaimsBase.zero with roles := some ["user"] }) rfl)
    rcases hb : hasRole [(CtxKey.issuerClaims,
      CtxVal.claims (ClaimsVal.identity { ClaimsBase.zero with roles := some ["user"] }))]
      "admin" with _ | _
    · rfl
    · exact absurd (h.mp hb) (by decide)
  · exact ((hasRole_spec [(CtxKey.issuerClaims,
      CtxVal.claims (ClaimsVal.identity { ClaimsBase.zero with roles := some ["admin", "user"] }))]
      "admin").2 (ClaimsVal.identity { ClaimsBase.zero with roles := some ["admin", "user"] }) rfl).mpr
      (by decide)

/-- **C9, counterexample** — The `middleware` package's
`GetIssuerClaimsFromContext` (`auth/middleware/middleware.go`) performs an
*unchecked* type assertion; on a context carrying no claims value it panics
(modelled by `Except.error`) instead of returning an explicit "not present"
result.  This refutes "for every context, `GetIssuerClaimsFromContext`
returns an explicit not-present result (with no panic) whenever the context
carries no claims value under the private key". -/
theorem middlewareGetClaims_panics_cex :
    middlewareGetIssuerClaimsFromContext [] =
      Except.error "panic: interface conversion: interface \x7b\x7d is nil, not issuer.Claims" := by
  rfl

/-- **C9, amended** — The `auth` package's `GetIssuerClaimsFromContext` (the
comma-ok variant, carried identically by `auth/auth.go`) returns the explicit
"not present" result `nil` whenever the context carries no value under the
private key or a value of the wrong dynamic type, and returns the stored
claims otherwise; being defined by a total comma-ok case split, it never
panics.  (The older `middleware` package variant instead panics in the
absent/wrong-type cases.) -/
theorem getIssuerClaimsFromContext_safe (ctx : Ctx) :
    (ctx.value CtxKey.issuerClaims = none → getIssuerClaimsFromContext ctx = none) ∧
    (∀ s, ctx.value CtxKey.issuerClaims = some (CtxVal.str s) →
      getIssuerClaimsFromContext ctx = none) ∧
    (∀ n, ctx.value CtxKey.issuerClaims = some (CtxVal.int n) →
      getIssuerClaimsFromContext ctx = none) ∧
    (∀ c, ctx.value CtxKey.issuerClaims = some (CtxVal.claims c) →
      getIssuerClaimsFromContext ctx = some c) := by
  refine ⟨fun h => ?_, fun s h => ?_, fun n h => ?_, fun c h => ?_⟩ <;>
    simp [getIssuerClaimsFromContext, h]

/-- Witness for `getIssuerClaimsFromContext_safe`: the empty context and a
context carrying a wrong-typed value both give `none`; a stored claims value
is returned. -/
theorem getIssuerClaimsFromContext_safe_witness :
    getIssuerClaimsFromContext [] = none ∧
    getIssuerClaimsFromContext [(CtxKey.issuerClaims, CtxVal.str "oops")] = none ∧
    getIssuerClaimsFromContext [(CtxKey.issuerClaims,
      CtxVal.claims (ClaimsVal.identity ClaimsBase.zero))] =
      some (ClaimsVal.identity ClaimsBase.zero) :=
  ⟨(getIssuerClaimsFromContext_safe []).1 rfl,
   (getIssuerClaimsFromContext_safe [(CtxKey.issuerClaims, CtxVal.str "oops")]).2.1 "oops" rfl,
   (getIssuerClaimsFromContext_safe [(CtxKey.issuerClaims,
      CtxVal.claims (ClaimsVal.identity ClaimsBase.zero))]).2.2.2
      (ClaimsVal.identity ClaimsBase.zero) rfl⟩

end GoSdkAuth

namespace GoSdkAuth

/-! ## The orchestration core
(`auth/internal/authorization_bearer_token`, package `authorization_bearer_token`)

The collaborators that the specification places outside the core are
parameters:

* `b64decode` — `base64.RawURLEncoding.DecodeString` (bytes as `List Nat`);
* `unmarshalIss` — `json.Unmarshal(payload, &struct{ Issuer string
  json:"iss,omitempty" }{})`, returning the decoded `iss` string;
* per-issuer `verify` — the `oidc.IDTokenVerifier` bound to the issuer's
  JWKS endpoint (`IssuerBase.Verify`); `Except.ok` stands for a verified
  `*oidc.IDToken` (whose fields the core never reads);
* per-issuer `claims` — the issuer's `Claims(payload)` decoder.

An HTTP request is modelled by its `Authorization` header values, its
cookies, and its `context.Context`. -/

structure Collab where
  b64decode : String → Except String (List Nat)
  unmarshalIss : List Nat → Except String String

/-- The `issuer.Issuer` interface, polymorphic in the claims type produced by
`Claims` (the Go interface value `issuer.Claims`; instantiated with
`ClaimsVal` by the middleware). -/
structure Issuer (α : Type) where
  matchIssuer : String → Bool
  verify : String → Except String Unit
  claims : List Nat → Except String α

/-- `type AuthorizationBearerToken struct { Issuers []issuer.Issuer }`. -/
structure AuthorizationBearerToken (α : Type) where
  issuers : List (Issuer α)

structure Request where
  /-- The `Authorization` header values, in order (`r.Header["Authorization"]`).
  `r.Header.Get` returns the first value, `""` when none is present, so an
  absent header and a present-but-empty one are indistinguishable to the code. -/
  authorizationValues : List String
  /-- Cookies as name/value pairs; `r.Cookie(name)` returns the first cookie
  with that name, or `http.ErrNoCookie`. -/
  cookies : List (String × String)
  /-- `r.Context()`. -/
  ctx : Ctx

/-- `r.Header.Get("Authorization")`: first value or `""`. -/
def Request.authorizationHeader (r : Request) : String :=
  match r.authorizationValues with
  | [] => ""
  | v :: _ => v

/-- `r.Cookie(name)`: the first cookie with that name, if any. -/
def Request.cookie (r : Request) (name : String) : Option String :=
  match List.find? (fun c => c.1 = name) r.cookies with
  | none => none
  | some c => some c.2

/-- `strings.Split` for a single-character separator (both separators used by
the core, `" "` and `"."`, are single characters): split the character list at
every occurrence of the separator.  `Split("", sep) = [""]`, as in Go. -/
def splitOnChar (sep : Char) : List Char → List (List Char)
  | [] => [[]]
  | c :: rest =>
    match splitOnChar sep rest with
    | [] => [[c]]
    | l :: ls => if c = sep then [] :: l :: ls else (c :: l) :: ls

/-- `strings.Split(s, sep)` for a single-character `sep`. -/
def goStringsSplit (s : String) (sep : Char) : List String :=
  (splitOnChar sep s.data).map String.mk

/-- `func (a *AuthorizationBearerToken) splitAuthHeader(header string) (string, string, error)`:
split on `" "`; error `"authorization header malformed (split size: %v)"`
unless exactly two parts. -/
def splitAuthHeader (header : String) : Except String (String × String) :=
  let s := goStringsSplit header ' '
  if s.length = 2 then
    Except.ok (s.headD "", (s.getD 1 ""))
  else
    Except.error ("authorization header malformed (split size: " ++ toString s.length ++ ")")

/-- `func (a *AuthorizationBearerToken) extractTokenFromBearer(authorization string) (string, error)`:
reject any scheme other than exactly `"Bearer"`. -/
def extractTokenFromBearer (authorization : String) : Except String String :=
  match splitAuthHeader authorization with
  | Except.error e => Except.error e
  | Except.ok (tokenType, token) =>
    if tokenType ≠ "Bearer" then
      Except.error ("invalid authorization header (accepts Bearer only | tokenType: " ++ tokenType ++ ")")
    else
      Except.ok token

/-- `func (a *AuthorizationBearerToken) extractTokenFromCookie(r *http.Request) (string, error)`:
`http.ErrNoCookie` is swallowed, yielding `("", nil)`; a present cookie's
value is returned verbatim. -/
def extractTokenFromCookie (r : Request) : Except String String :=
  match r.cookie "jwt.token" with
  | none => Except.ok ""
  | some v => Except.ok v

/-- `func (a *AuthorizationBearerToken) parseJWT(jwt string) ([]byte, error)`:
split on `"."`; fewer than 2 parts is
`"malformed jwt, expected 3 parts got %d"`; then base64url-decode part 1
(`parts.getD 1 ""` equals `parts[1]` since, on the decode path, at least two
parts exist), wrapping a decode failure as `"malformed jwt payload: %v"`. -/
def parseJWT (cb : Collab) (jwt : String) : Except String (List Nat) :=
  let parts := goStringsSplit jwt '.'
  if parts.length < 2 then
    Except.error ("malformed jwt, expected 3 parts got " ++ toString parts.length)
  else
    match cb.b64decode (parts.getD 1 "") with
    | Except.error e => Except.error ("malformed jwt payload: " ++ e)
    | Except.ok payload => Except.ok payload

/-- `func (a *AuthorizationBearerToken) findIssuer(issuerClaim string) (issuer.Issuer, error)`:
first registered issuer whose `MatchIssuer` accepts, else `"issuer not found"`. -/
def findIssuer {α : Type} : List (Issuer α) → String → Except String (Issuer α)
  | [], _ => Except.error "issuer not found"
  | i :: rest, issuerClaim =>
    if i.matchIssuer issuerClaim then Except.ok i else findIssuer rest issuerClaim

/-- `func (a *AuthorizationBearerToken) validJWT(ctx, issuerClaim, rawToken string) (issuer.Issuer, error)`:
wrap a lookup failure as `"failed to find issuer: %w"`, then delegate to the
matched issuer's `Verify` (whose error is propagated unwrapped). -/
def validJWT {α : Type} (issuers : List (Issuer α)) (issuerClaim rawToken : String) :
    Except String (Issuer α) :=
  match findIssuer issuers issuerClaim with
  | Except.error e => Except.error ("failed to find issuer: " ++ e)
  | Except.ok i =>
    match i.verify rawToken with
    | Except.error e => Except.error e
    | Except.ok _ => Except.ok i

/-- The body of `IsValidBearerToken` once the token string has been
determined: the `if token != "" { … }` block of the source, ending at
`return nil, fmt.Errorf("authorization token not found")`. -/
def processToken {α : Type} (cb : Collab) (abt : AuthorizationBearerToken α)
    (token : String) : Except String α :=
  if token ≠ "" then
    match parseJWT cb token with
    | Except.error e => Except.error ("malformed jwt: " ++ e)
    | Except.ok payload =>
      match cb.unmarshalIss payload with
      | Except.error e => Except.error ("oidc: failed to unmarshal claim issuer only: " ++ e)
      | Except.ok issuerClaim =>
        match validJWT abt.issuers issuerClaim token with
        | Except.error e => Except.error ("failed to verify JWT: " ++ e)
        | Except.ok i => i.claims payload
  else
    Except.error "authorization token not found"

/-- The credential-location prefix of `IsValidBearerToken`: the header when
`r.Header.Get("Authorization")` is non-empty, the `jwt.token` cookie
otherwise. -/
def extractToken (r : Request) : Except String String :=
  if r.authorizationHeader ≠ "" then
    extractTokenFromBearer r.authorizationHeader
  else
    extractTokenFromCookie r

/-- `func (a *AuthorizationBearerToken) IsValidBearerToken(r *http.Request) (issuer.Claims, error)`. -/
def isValidBearerToken {α : Type} (cb : Collab) (abt : AuthorizationBearerToken α)
    (r : Request) : Except String α :=
  match extractToken r with
  | Except.error e => Except.error e
  | Except.ok token => processToken cb abt token

end GoSdkAuth

namespace GoSdkAuth

/-! ## JSON model for the issuer peek

`IsValidBearerToken` decodes only
`struct { Issuer string json:"iss,omitempty" }` from the payload.  The
byte-level JSON grammar is the collaborator `Collab.unmarshalIss`; the
struct-mapping semantics of `encoding/json` for this one struct is modelled
here on an abstract JSON value (`Modelled from the spec`'s collaborator
boundary — the `encoding/json` library is not part of the repository):
a non-object document cannot be unmarshalled into a struct; an object
without an `"iss"` key (or with `"iss": null`) leaves the field at its zero
value `""`; a string value is taken verbatim; any other value type is a
type-mismatch error.  Duplicate keys are processed sequentially, so the last
occurrence wins. -/

inductive JsonValue where
  | null
  | bool (b : Bool)
  | num (n : Int)
  | str (s : String)
  | arr (elems : List JsonValue)
  | obj (fields : List (String × JsonValue))

/-- Last occurrence of a key in an object (later duplicate keys overwrite). -/
def jsonLookupLast (fields : List (String × JsonValue)) (k : String) : Option JsonValue :=
  match List.find? (fun f => f.1 = k) fields.reverse with
  | none => none
  | some f => some f.2

/-- `json.Unmarshal` of a parsed JSON document into
`struct { Issuer string json:"iss,omitempty" }`, returning the `Issuer` field. -/
def unmarshalIssJson : JsonValue → Except String String
  | JsonValue.obj fields =>
    match jsonLookupLast fields "iss" with
    | none => Except.ok ""
    | some JsonValue.null => Except.ok ""
    | some (JsonValue.str s) => Except.ok s
    | some _ => Except.error "json: cannot unmarshal value into Go struct field .iss of type string"
  | JsonValue.null => Except.ok ""
  | _ => Except.error "json: cannot unmarshal value into Go value of type struct"

end GoSdkAuth

namespace GoSdkAuth

/-- If no registered issuer's pattern accepts the issuer claim, the scan of
the registration sequence fails with `"issuer not found"`. -/
theorem findIssuer_not_found {α : Type} (issuers : List (Issuer α)) (v : String)
    (h : ∀ i ∈ issuers, i.matchIssuer v = false) :
    findIssuer issuers v = Except.error "issuer not found" := by
  induction issuers with
  | nil => rfl
  | cons i rest ih =>
    have hi := h i (List.mem_cons_self i rest)
    simp [findIssuer, hi]
    exact ih fun j hj => h j (List.mem_cons_of_mem i hj)

/-- Concrete collaborator whose callbacks are never reached on the paths the
witnesses exercise. -/
def trivialCollab : Collab :=
  { b64decode := fun _ => Except.error "illegal base64 data"
    unmarshalIss := fun _ => Except.error "unexpected end of JSON input" }

/-- A registry with no issuers. -/
def emptyABT : AuthorizationBearerToken Unit := { issuers := [] }

/-- A request whose only credential is the header `Authorization: Bearer abc`. -/
def bearerAbcRequest : Request :=
  { authorizationValues := ["Bearer abc"], cookies := [], ctx := [] }

/-- Replacing a request's cookies leaves its `Authorization` header unchanged. -/
theorem authorizationHeader_set_cookies (r : Request) (cs : List (String × String)) :
    ({ r with cookies := cs } : Request).authorizationHeader = r.authorizationHeader :=
  rfl

end GoSdkAuth

namespace GoSdkAuth

/-- **C1** — `IsValidBearerToken` reads the `Authorization` header; when it is
present and non-empty the bearer-token flow runs (and the cookies play no
part in the outcome); when it is absent or empty (both give `""` from
`Header.Get`) the `jwt.token` cookie is used; and when the header is
absent/empty and no `jwt.token` cookie exists, it fails with the
no-credentials error `"authorization token not found"` (an `Except.error`,
so no claims are returned). -/
theorem isValidBearerToken_credential_flow {α : Type} (cb : Collab)
    (abt : AuthorizationBearerToken α) (r : Request) :
    (r.authorizationHeader ≠ "" →
      (isValidBearerToken cb abt r =
        match extractTokenFromBearer r.authorizationHeader with
        | Except.error e => Except.error e
        | Except.ok token => processToken cb abt token) ∧
      (∀ cookies', isValidBearerToken cb abt r =
        isValidBearerToken cb abt { r with cookies := cookies' })) ∧
    (r.authorizationHeader = "" → ∀ v, r.cookie "jwt.token" = some v →
      isValidBearerToken cb abt r = processToken cb abt v) ∧
    (r.authorizationHeader = "" → r.cookie "jwt.token" = none →
      isValidBearerToken cb abt r = Except.error "authorization token not found") := by
  refine ⟨fun h => ⟨?_, fun cookies' => ?_⟩, fun h v hv => ?_, fun h hc => ?_⟩
  · simp [isValidBearerToken, extractToken, h]
  · simp only [isValidBearerToken, extractToken, authorizationHeader_set_cookies]
    simp [h]
  · simp [isValidBearerToken, extractToken, h, extractTokenFromCookie, hv]
  · simp [isValidBearerToken, extractToken, h, extractTokenFromCookie, hc, processToken]

/-- Witness for `isValidBearerToken_credential_flow`: a bearer-header request
ignores cookies; a cookie-only request feeds the cookie value to the token
pipeline; a request with neither credential gets the no-credentials error. -/
theorem isValidBearerToken_credential_flow_witness :
    isValidBearerToken trivialCollab emptyABT bearerAbcRequest =
      isValidBearerToken trivialCollab emptyABT
        { bearerAbcRequest with cookies := [("jwt.token", "zzz")] } ∧
    isValidBearerToken trivialCollab emptyABT
      { authorizationValues := [], cookies := [("jwt.token", "abc")], ctx := [] } =
      processToken trivialCollab emptyABT "abc" ∧
    isValidBearerToken trivialCollab emptyABT
      { authorizationValues := [], cookies := [], ctx := [] } =
      Except.error "authorization token not found" :=
  ⟨((isValidBearerToken_credential_flow trivialCollab emptyABT bearerAbcRequest).1
      (by decide)).2 [("jwt.token", "zzz")],
   (isValidBearerToken_credential_flow trivialCollab emptyABT
      { authorizationValues := [], cookies := [("jwt.token", "abc")], ctx := [] }).2.1
      rfl "abc" rfl,
   (isValidBearerToken_credential_flow trivialCollab emptyABT
      { authorizationValues := [], cookies := [], ctx := [] }).2.2 rfl rfl⟩

/-- **C10** — In the cookie fallback path (empty/absent `Authorization`
header), the whole `jwt.token` cookie value is used verbatim as the raw JWT
(no `Bearer` scheme is required or stripped — the value reaches the token
pipeline unchanged), and a present cookie whose value is the empty string
yields exactly the credentials-not-found error `"authorization token not
found"`, the same outcome as having no cookie at all (not a token-parse
error). -/
theorem isValidBearerToken_cookie_verbatim {α : Type} (cb : Collab)
    (abt : AuthorizationBearerToken α) (r : Request)
    (hh : r.authorizationHeader = "") :
    (∀ v, r.cookie "jwt.token" = some v →
      isValidBearerToken cb abt r = processToken cb abt v) ∧
    (r.cookie "jwt.token" = some "" →
      isValidBearerToken cb abt r = Except.error "authorization token not found" ∧
      isValidBearerToken cb abt r = isValidBearerToken cb abt { r with cookies := [] }) := by
  have hmain : ∀ v, r.cookie "jwt.token" = some v →
      isValidBearerToken cb abt r = processToken cb abt v := by
    intro v hv
    simp [isValidBearerToken, extractToken, hh, extractTokenFromCookie, hv]
  have hempty : isValidBearerToken cb abt r = processToken cb abt "" →
      isValidBearerToken cb abt r = Except.error "authorization token not found" := by
    intro h
    rw [h]
    simp [processToken]
  refine ⟨hmain, fun hc => ⟨hempty (hmain "" hc), ?_⟩⟩
  · have hnone : ({ r with cookies := [] } : Request).cookie "jwt.token" = none := by
      simp [Request.cookie]
    have h2 : isValidBearerToken cb abt { r with cookies := [] } =
        Except.error "authorization token not found" := by
      simp only [isValidBearerToken, extractToken, authorizationHeader_set_cookies]
      simp [hh, extractTokenFromCookie, hnone, processToken]
    rw [hempty (hmain "" hc), h2]

/-- Witness for `isValidBearerToken_cookie_verbatim`: an empty-valued
`jwt.token` cookie gives the not-found error and agrees with the cookieless
request, while a cookie holding `"Bearer x.y"` feeds that entire string
(scheme word included) to the token pipeline. -/
theorem isValidBearerToken_cookie_verbatim_witness :
    (isValidBearerToken trivialCollab emptyABT
        { authorizationValues := [], cookies := [("jwt.token", "")], ctx := [] } =
      Except.error "authorization token not found" ∧
     isValidBearerToken trivialCollab emptyABT
        { authorizationValues := [], cookies := [("jwt.token", "")], ctx := [] } =
      isValidBearerToken trivialCollab emptyABT
        { authorizationValues := [], cookies := [], ctx := [] }) ∧
    isValidBearerToken trivialCollab emptyABT
      { authorizationValues := [], cookies := [("jwt.token", "Bearer x.y")], ctx := [] } =
      processToken trivialCollab emptyABT "Bearer x.y" :=
  ⟨(isValidBearerToken_cookie_verbatim trivialCollab emptyABT
      { authorizationValues := [], cookies := [("jwt.token", "")], ctx := [] } rfl).2 rfl,
   (isValidBearerToken_cookie_verbatim trivialCollab emptyABT
      { authorizationValues := [], cookies := [("jwt.token", "Bearer x.y")], ctx := [] } rfl).1
      "Bearer x.y" rfl⟩

end GoSdkAuth

namespace GoSdkAuth

/-- Model of the issuer built by `identity.NewIdentity` (claims type collapsed
to `Unit`, verification accepting: the witness scenario's signature "would
otherwise verify"). -/
def identityLikeIssuer : Issuer Unit :=
  { matchIssuer := identityMatchIssuer
    verify := fun _ => Except.ok ()
    claims := fun _ => Except.ok () }

/-- Model of the issuer built by `rac.NewRac`, verification accepting. -/
def racLikeIssuer : Issuer Unit :=
  { matchIssuer := racMatchIssuer
    verify := fun _ => Except.ok ()
    claims := fun _ => Except.ok () }

/-- Model of the issuer built by `google.NewGoogle`, verification accepting. -/
def googleLikeIssuer : Issuer Unit :=
  { matchIssuer := googleMatchIssuer
    verify := fun _ => Except.ok ()
    claims := fun _ => Except.ok () }

/-- The three-issuer registry in registration order (Identity, RAC, Google),
as built by `auth.NewAuthorizationBearerToken`. -/
def threeIssuerABT : AuthorizationBearerToken Unit :=
  { issuers := [identityLikeIssuer, racLikeIssuer, googleLikeIssuer] }

/-- Collaborator pair for the unknown-issuer scenario: the payload decodes and
its `iss` peek yields `"https://unknown.example.com"`. -/
def unknownIssCollab : Collab :=
  { b64decode := fun _ => Except.ok []
    unmarshalIss := fun _ => Except.ok "https://unknown.example.com" }

/-- A request with the header `Authorization: Bearer h.p`. -/
def bearerHpRequest : Request :=
  { authorizationValues := ["Bearer h.p"], cookies := [], ctx := [] }

end GoSdkAuth

namespace GoSdkAuth

/-- **C2** — Whenever the token pipeline reaches the issuer-peek with a payload
whose decoded `iss` value matches no registered issuer's pattern,
`IsValidBearerToken` fails with the issuer-not-found error (wrapped as
`"failed to verify JWT: failed to find issuer: issuer not found"`), whatever
each issuer's `Verify` would return — the signature is never examined.
Moreover the registered issuer sequence is scanned in order and the first
match is taken, and the modelled `encoding/json` unmarshal of
`struct { Issuer string json:"iss,omitempty" }` yields the empty string
(successfully — the peek step itself does not fail) on an object payload
with no `iss` key. -/
theorem issuerNotFound_rejects {α : Type} (cb : Collab)
    (abt : AuthorizationBearerToken α) :
    (∀ (r : Request) (t : String) (payload : List Nat) (iss : String),
      extractToken r = Except.ok t → t ≠ "" →
      parseJWT cb t = Except.ok payload →
      cb.unmarshalIss payload = Except.ok iss →
      (∀ i ∈ abt.issuers, i.matchIssuer iss = false) →
      isValidBearerToken cb abt r =
        Except.error "failed to verify JWT: failed to find issuer: issuer not found") ∧
    (∀ (pre post : List (Issuer α)) (i : Issuer α) (v : String),
      (∀ j ∈ pre, j.matchIssuer v = false) → i.matchIssuer v = true →
      findIssuer (pre ++ i :: post) v = Except.ok i) ∧
    (∀ fields : List (String × JsonValue), (∀ f ∈ fields, f.1 ≠ "iss") →
      unmarshalIssJson (JsonValue.obj fields) = Except.ok "") := by
  refine ⟨fun r t payload iss h1 h2 h3 h4 h5 => ?_, fun pre post i v hpre hi => ?_,
    fun fields hf => ?_⟩
  · have hfind := findIssuer_not_found abt.issuers iss h5
    simp [isValidBearerToken, h1, processToken, h2, h3, h4, validJWT, hfind]
  · induction pre with
    | nil => simp [findIssuer, hi]
    | cons j rest ih =>
      have hj := hpre j (List.mem_cons_self j rest)
      simp [findIssuer, hj]
      exact ih fun k hk => hpre k (List.mem_cons_of_mem j hk)
  · have hlook : jsonLookupLast fields "iss" = none := by
      unfold jsonLookupLast
      rw [List.find?_eq_none.mpr]
      intro f hf2
      have := hf f (List.mem_reverse.mp hf2)
      simpa using this
    simp [unmarshalIssJson, hlook]

/-- Witness for `issuerNotFound_rejects`: against the Identity/RAC/Google
registry — every issuer's `Verify` accepting — a bearer token whose payload
peeks to `iss = "https://unknown.example.com"` is rejected with the
issuer-not-found error, and the `iss`-free object payload peeks to `""`. -/
theorem issuerNotFound_rejects_witness :
    isValidBearerToken unknownIssCollab threeIssuerABT bearerHpRequest =
      Except.error "failed to verify JWT: failed to find issuer: issuer not found" ∧
    unmarshalIssJson (JsonValue.obj [("aud", JsonValue.str "abc")]) = Except.ok "" :=
  ⟨(issuerNotFound_rejects unknownIssCollab threeIssuerABT).1 bearerHpRequest "h.p" []
      "https://unknown.example.com" rfl (by decide) rfl rfl (by decide),
   (issuerNotFound_rejects unknownIssCollab threeIssuerABT).2.2
      [("aud", JsonValue.str "abc")] (by decide)⟩

end GoSdkAuth

namespace GoSdkAuth

/-- Substring occurrence test over character lists (for statements about what
an error message does or does not report). -/
def listContainsSub (pat cs : List Char) : Bool :=
  (List.range (cs.length + 1)).any fun i => pat.isPrefixOf (cs.drop i)

end GoSdkAuth

namespace GoSdkAuth

/-- **C7, counterexample** — For the dotless token `"abc"` (request header
`Authorization: Bearer abc`), `IsValidBearerToken` does fail at the
token-splitting step, but the error message is
`"malformed jwt: malformed jwt, expected 3 parts got 1"`: it claims to expect
**3 parts** — it nowhere reports expecting *at least 2 segments* — even
though the code's check accepts any token with at least 2 segments.  This
refutes the claim's description of the message (matching the repository's own
test, which expects the substring `"malformed jwt, expected 3 parts got 1"`). -/
theorem malformedToken_message_cex :
    isValidBearerToken trivialCollab emptyABT bearerAbcRequest =
      Except.error "malformed jwt: malformed jwt, expected 3 parts got 1" ∧
    listContainsSub "at least 2".data
      "malformed jwt: malformed jwt, expected 3 parts got 1".data = false ∧
    listContainsSub "expected 3 parts got 1".data
      "malformed jwt: malformed jwt, expected 3 parts got 1".data = true := by
  refine ⟨?_, by decide, by decide⟩
  rfl

/-- **C7, amended** — Every token string that splits on `"."` into fewer than
2 parts — in particular `"abc"`, which yields a single part — makes
`IsValidBearerToken` fail with the malformed-token error; the message reports
the actual number of parts obtained, but announces `"expected 3 parts"`
(while the code accepts any token with at least 2 parts): for `"abc"` it is
`"malformed jwt: malformed jwt, expected 3 parts got 1"`. -/
theorem malformedToken_rejects {α : Type} (cb : Collab)
    (abt : AuthorizationBearerToken α) (r : Request) (t : String)
    (h1 : extractToken r = Except.ok t) (h2 : t ≠ "")
    (h3 : (goStringsSplit t '.').length < 2) :
    isValidBearerToken cb abt r =
      Except.error ("malformed jwt: malformed jwt, expected 3 parts got " ++
        toString (goStringsSplit t '.').length) := by
  simp [isValidBearerToken, h1, processToken, h2, parseJWT, h3, ← String.append_assoc]

/-- Witness for `malformedToken_rejects` at the dotless token `"abc"`. -/
theorem malformedToken_rejects_witness :
    isValidBearerToken trivialCollab emptyABT bearerAbcRequest =
      Except.error ("malformed jwt: malformed jwt, expected 3 parts got " ++
        toString (goStringsSplit "abc" '.').length) :=
  malformedToken_rejects trivialCollab emptyABT bearerAbcRequest "abc" rfl
    (by decide) (by decide)

end GoSdkAuth

namespace GoSdkAuth

/-! ## HTTP response model (`net/http` semantics used by the middlewares)

A `ResponseWriter` records the sent header block, the status line and the
body.  Per `net/http`: changing the header map after `WriteHeader` has no
effect on what is sent (the header block goes out with the status line), a
second `WriteHeader` is ignored, and `Write` without a prior `WriteHeader`
implies `WriteHeader(200)`. -/

structure ResponseWriter where
  headers : List (String × String)
  status : Option Nat
  body : String
  deriving DecidableEq, Repr

/-- A fresh writer, before anything is sent. -/
def ResponseWriter.init : ResponseWriter :=
  { headers := [], status := none, body := "" }

/-- `w.Header().Set(k, v)`: replaces the values for `k` — but only before
`WriteHeader`; afterwards the header block is already on the wire and the
mutation is not sent. -/
def ResponseWriter.setHeader (w : ResponseWriter) (k v : String) : ResponseWriter :=
  if w.status.isSome then w
  else { w with headers := (k, v) :: w.headers.filter (fun p => p.1 != k) }

/-- `w.WriteHeader(code)`: sends the status and header block once. -/
def ResponseWriter.writeHeader (w : ResponseWriter) (code : Nat) : ResponseWriter :=
  if w.status.isSome then w else { w with status := some code }

/-- `w.Write(...)` / `fmt.Fprintf(w, ...)` / `json.NewEncoder(w).Encode(...)`
body bytes: an implicit `WriteHeader(200)` first if none was sent. -/
def ResponseWriter.write (w : ResponseWriter) (s : String) : ResponseWriter :=
  let w' := if w.status.isSome then w else { w with status := some 200 }
  { w' with body := w'.body ++ s }

end GoSdkAuth

namespace GoSdkAuth

/-! ## `encoding/json` string encoding of the error body

`json.NewEncoder(w).Encode(map[string]string{"error": msg})` emits
`{"error":<quoted msg>}` followed by a newline, with the default
HTML-escaping on.  `escChar` transcribes the escaping rules of
`encoding/json`'s string encoder: `"` and `\` get two-character escapes, the
HTML-sensitive `<`, `>`, `&` become `<`/`>`/`&`, `\n`, `\r`,
`\t` get their short escapes, all other control characters below U+0020
become `\u00XX` (lowercase hex), U+2028 and U+2029 become ` `/` `,
and every other character is emitted verbatim. -/

/-- Lowercase hex digit. -/
def hexDigitChar (n : Nat) : Char :=
  if n < 10 then Char.ofNat (48 + n) else Char.ofNat (87 + n)

/-- `\uXXXX` escape (code points below U+10000, the only ones escaped here). -/
def uEscape (c : Char) : List Char :=
  ['\\', 'u', hexDigitChar (c.toNat / 4096 % 16), hexDigitChar (c.toNat / 256 % 16),
    hexDigitChar (c.toNat / 16 % 16), hexDigitChar (c.toNat % 16)]

/-- Per-character JSON string escaping of `encoding/json` (HTML escaping on). -/
def escChar (c : Char) : List Char :=
  if c = '"' then ['\\', '"']
  else if c = '\\' then ['\\', '\\']
  else if c = '<' ∨ c = '>' ∨ c = '&' then uEscape c
  else if c = '\n' then ['\\', 'n']
  else if c = '\r' then ['\\', 'r']
  else if c = '\t' then ['\\', 't']
  else if c.toNat < 32 then uEscape c
  else if c.toNat = 8232 ∨ c.toNat = 8233 then uEscape c
  else [c]

/-- JSON string escaping of a whole character sequence. -/
def escapeChars : List Char → List Char
  | [] => []
  | c :: cs => escChar c ++ escapeChars cs

/-- The bytes `json.NewEncoder(w).Encode(map[string]string{"error": e})`
writes: `{"error":"<escaped e>"}` and a trailing newline. -/
def encodeErrorObjChars (e : String) : List Char :=
  '{' :: '"' :: 'e' :: 'r' :: 'r' :: 'o' :: 'r' :: '"' :: ':' :: '"' ::
    (escapeChars e.data ++ '"' :: '}' :: '\n' :: [])

/-- Same, as a string (the body written by the `auth` package middleware). -/
def encodeErrorObj (e : String) : String :=
  String.mk (encodeErrorObjChars e)

/-! ## A sound JSON recognizer for the response body

`parseStringTail` consumes the remainder of a JSON string literal (after the
opening quote) per the JSON grammar: plain characters (no unescaped control
characters), two-character escapes, and `\uXXXX`.  `parseErrorBody` accepts
exactly the JSON documents of the form `{"error":<string>}` (with an
optional trailing newline), so `parseErrorBody s = true` certifies that `s`
is parseable as JSON with a top-level `"error"` string field. -/

def isHexDigitChar (c : Char) : Bool :=
  ('0' ≤ c && c ≤ '9') || ('a' ≤ c && c ≤ 'f') || ('A' ≤ c && c ≤ 'F')

/-- One-character-at-a-time scanner for the tail of a JSON string literal
(after the opening quote).  States: `0` — ordinary character position
(a quote closes the literal, a backslash opens an escape, unescaped control
characters are illegal); `1` — right after a backslash (`u` starts a
`\uXXXX` escape, the other single-character escapes return to state 0);
`2`–`5` — the four hex digits of a `\uXXXX` escape. -/
def pstRun : List Char → Nat → Option (List Char)
  | [], _ => none
  | c :: rest, st =>
    if st = 0 then
      if c = '"' then some rest
      else if c = '\\' then pstRun rest 1
      else if c.toNat < 32 then none
      else pstRun rest 0
    else if st = 1 then
      if c = 'u' then pstRun rest 2
      else if c = '"' || c = '\\' || c = '/' || c = 'b' || c = 'f' ||
          c = 'n' || c = 'r' || c = 't' then pstRun rest 0
      else none
    else
      if isHexDigitChar c then
        if st = 5 then pstRun rest 0 else pstRun rest (st + 1)
      else none

/-- Consume the remainder of a JSON string literal (after the opening quote),
returning what follows the closing quote. -/
def parseStringTail (cs : List Char) : Option (List Char) :=
  pstRun cs 0

/-- Recognize a JSON object with a single `"error"` string member (the exact
compact shape the encoder produces), with an optional trailing newline: an
opening brace, the quoted key, a colon, a JSON string, a closing brace. -/
def parseErrorBody (s : String) : Bool :=
  (s.data.take 10 == ['\x7b', '"', 'e', 'r', 'r', 'o', 'r', '"', ':', '"']) &&
    (match parseStringTail (s.data.drop 10) with
     | some t => t == ['\x7d'] || t == ['\x7d', '\n']
     | none => false)

/-- `hexDigitChar` of a nibble is a hex digit. -/
theorem isHexDigitChar_hexDigitChar (n : Nat) :
    isHexDigitChar (hexDigitChar (n % 16)) = true := by
  have h : n % 16 < 16 := Nat.mod_lt _ (by norm_num)
  set m := n % 16 with hm
  interval_cases m <;> rfl

/-- Step: closing quote. -/
theorem pst_quote (t : List Char) : parseStringTail ('"' :: t) = some t := rfl

/-- Step: escaped quote. -/
theorem pst_bs_quote (t : List Char) :
    parseStringTail ('\\' :: '"' :: t) = parseStringTail t := rfl

/-- Step: escaped backslash. -/
theorem pst_bs_bs (t : List Char) :
    parseStringTail ('\\' :: '\\' :: t) = parseStringTail t := rfl

/-- Step: escaped newline. -/
theorem pst_bs_n (t : List Char) :
    parseStringTail ('\\' :: 'n' :: t) = parseStringTail t := rfl

/-- Step: escaped carriage return. -/
theorem pst_bs_r (t : List Char) :
    parseStringTail ('\\' :: 'r' :: t) = parseStringTail t := rfl

/-- Step: escaped tab. -/
theorem pst_bs_t (t : List Char) :
    parseStringTail ('\\' :: 't' :: t) = parseStringTail t := rfl

/-- Step: `\uXXXX` escape over four hex digits. -/
theorem pst_u (a b c d : Char) (t : List Char)
    (ha : isHexDigitChar a = true) (hb : isHexDigitChar b = true)
    (hc : isHexDigitChar c = true) (hd : isHexDigitChar d = true) :
    parseStringTail ('\\' :: 'u' :: a :: b :: c :: d :: t) = parseStringTail t := by
  have s0 : parseStringTail ('\\' :: 'u' :: a :: b :: c :: d :: t) =
      pstRun (a :: b :: c :: d :: t) 2 := rfl
  have s1 : pstRun (a :: b :: c :: d :: t) 2 =
      if isHexDigitChar a then pstRun (b :: c :: d :: t) 3 else none := rfl
  have s2 : pstRun (b :: c :: d :: t) 3 =
      if isHexDigitChar b then pstRun (c :: d :: t) 4 else none := rfl
  have s3 : pstRun (c :: d :: t) 4 =
      if isHexDigitChar c then pstRun (d :: t) 5 else none := rfl
  have s4 : pstRun (d :: t) 5 =
      if isHexDigitChar d then pstRun t 0 else none := rfl
  rw [s0, s1, ha, if_pos rfl, s2, hb, if_pos rfl, s3, hc, if_pos rfl, s4, hd, if_pos rfl]
  rfl

/-- Step: a plain (unescaped, non-control) character. -/
theorem pst_plain (c : Char) (t : List Char)
    (h1 : ¬ c = '"') (h2 : ¬ c = '\\') (h3 : ¬ c.toNat < 32) :
    parseStringTail (c :: t) = parseStringTail t := by
  have hbody : parseStringTail (c :: t) =
      if c = '"' then some t
      else if c = '\\' then pstRun t 1
      else if c.toNat < 32 then none
      else pstRun t 0 := rfl
  rw [hbody, if_neg h1, if_neg h2, if_neg h3]
  rfl

/-- Round trip: the JSON string escaping always re-parses, consuming exactly
up to the closing quote. -/
theorem parseStringTail_escapeChars (cs rest : List Char) :
    parseStringTail (escapeChars cs ++ '"' :: rest) = some rest := by
  induction cs with
  | nil => exact pst_quote rest
  | cons c cs ih =>
    show parseStringTail ((escChar c ++ escapeChars cs) ++ '"' :: rest) = some rest
    rw [List.append_assoc]
    unfold escChar
    split_ifs with h1 h2 h3 h4 h5 h6 h7 h8
    · rw [List.cons_append, List.cons_append, List.nil_append, pst_bs_quote]
      exact ih
    · rw [List.cons_append, List.cons_append, List.nil_append, pst_bs_bs]
      exact ih
    · rw [uEscape]
      rw [List.cons_append, List.cons_append, List.cons_append, List.cons_append,
        List.cons_append, List.cons_append, List.nil_append]
      rw [pst_u _ _ _ _ _ (isHexDigitChar_hexDigitChar _) (isHexDigitChar_hexDigitChar _)
        (isHexDigitChar_hexDigitChar _) (isHexDigitChar_hexDigitChar _)]
      exact ih
    · rw [List.cons_append, List.cons_append, List.nil_append, pst_bs_n]
      exact ih
    · rw [List.cons_append, List.cons_append, List.nil_append, pst_bs_r]
      exact ih
    · rw [List.cons_append, List.cons_append, List.nil_append, pst_bs_t]
      exact ih
    · rw [uEscape]
      rw [List.cons_append, List.cons_append, List.cons_append, List.cons_append,
        List.cons_append, List.cons_append, List.nil_append]
      rw [pst_u _ _ _ _ _ (isHexDigitChar_hexDigitChar _) (isHexDigitChar_hexDigitChar _)
        (isHexDigitChar_hexDigitChar _) (isHexDigitChar_hexDigitChar _)]
      exact ih
    · rw [uEscape]
      rw [List.cons_append, List.cons_append, List.cons_append, List.cons_append,
        List.cons_append, List.cons_append, List.nil_append]
      rw [pst_u _ _ _ _ _ (isHexDigitChar_hexDigitChar _) (isHexDigitChar_hexDigitChar _)
        (isHexDigitChar_hexDigitChar _) (isHexDigitChar_hexDigitChar _)]
      exact ih
    · rw [List.cons_append, List.nil_append, pst_plain c _ h1 h2 h7]
      exact ih

/-- The encoded error body is parseable as a JSON object with a top-level
`"error"` string field. -/
theorem parseErrorBody_encodeErrorObj (e : String) :
    parseErrorBody (encodeErrorObj e) = true := by
  have hdata : (encodeErrorObj e).data = encodeErrorObjChars e := rfl
  have htake : (encodeErrorObjChars e).take 10 =
      ['\x7b', '"', 'e', 'r', 'r', 'o', 'r', '"', ':', '"'] := rfl
  have hdrop : (encodeErrorObjChars e).drop 10 =
      escapeChars e.data ++ '"' :: '\x7d' :: '\n' :: [] := rfl
  unfold parseErrorBody
  rw [hdata, htake, hdrop, parseStringTail_escapeChars]
  decide

end GoSdkAuth

namespace GoSdkAuth

/-! ## The two HTTP middlewares -/

/-- Handler type: `http.Handler.ServeHTTP(w, r)` as a writer transformer. -/
def Handler : Type := Request → ResponseWriter → ResponseWriter

/-- Package `auth` `HTTPAuthorizationBearerTokenMiddleware` (current layout):

```go
claims, err := authorizationBearerToken.IsValidBearerToken(r)
if err != nil {
  w.Header().Set("Content-Type", "application/json; charset=utf-8")
  w.WriteHeader(http.StatusUnauthorized)
  json.NewEncoder(w).Encode(map[string]string{"error": err.Error()})
  return
}
ctx := context.WithValue(r.Context(), ISSUER_CLAIMS_KEY, claims)
next.ServeHTTP(w, r.WithContext(ctx))
```
-/
def httpAuthMiddleware (cb : Collab) (abt : AuthorizationBearerToken ClaimsVal)
    (next : Handler) (r : Request) (w : ResponseWriter) : ResponseWriter :=
  match isValidBearerToken cb abt r with
  | Except.error err =>
    ((w.setHeader "Content-Type" "application/json; charset=utf-8").writeHeader 401).write
      (encodeErrorObj err)
  | Except.ok claims =>
    next { r with ctx := r.ctx.withValue CtxKey.issuerClaims (CtxVal.claims claims) } w

/-- `auth/middleware/middleware.go` `ValidBearerToken` (the older core in the
same file as the older middleware): header-only — no cookie fallback — with
the error `"header authorization not found"`, and no `token != ""` guard
after extraction; the rest of the pipeline is textually identical to
`IsValidBearerToken`. -/
def mwValidBearerToken {α : Type} (cb : Collab) (abt : AuthorizationBearerToken α)
    (r : Request) : Except String α :=
  if r.authorizationHeader ≠ "" then
    match extractTokenFromBearer r.authorizationHeader with
    | Except.error e => Except.error e
    | Except.ok token =>
      match parseJWT cb token with
      | Except.error e => Except.error ("malformed jwt: " ++ e)
      | Except.ok payload =>
        match cb.unmarshalIss payload with
        | Except.error e => Except.error ("oidc: failed to unmarshal claim issuer only: " ++ e)
        | Except.ok issuerClaim =>
          match validJWT abt.issuers issuerClaim token with
          | Except.error e => Except.error ("failed to verify JWT: " ++ e)
          | Except.ok i => i.claims payload
  else
    Except.error "header authorization not found"

/-- Package `middleware` `HTTPAuthorizationBearerTokenMiddleware`
(`auth/middleware/middleware.go`):

```go
claims, err := authMiddleware.ValidBearerToken(r)
if err != nil {
  w.WriteHeader(http.StatusUnauthorized)
  w.Header().Set("Content-Type", "application/json; charset=utf-8")
  fmt.Fprintf(w, "\x7b\"error\": \"%v\"\x7d", err.Error())
  return
}
...
```

Note the order: `WriteHeader` runs *before* the `Content-Type` header is set
(so the set is not sent), and the body is built by `Fprintf` with no JSON
escaping of the message. -/
def httpMwMiddleware (cb : Collab) (abt : AuthorizationBearerToken ClaimsVal)
    (next : Handler) (r : Request) (w : ResponseWriter) : ResponseWriter :=
  match mwValidBearerToken cb abt r with
  | Except.error err =>
    (((w.writeHeader 401).setHeader "Content-Type" "application/json; charset=utf-8")).write
      ("\x7b\"error\": \"" ++ err ++ "\"\x7d")
  | Except.ok claims =>
    next { r with ctx := r.ctx.withValue CtxKey.issuerClaims (CtxVal.claims claims) } w

/-- A request with no credentials at all. -/
def noCredRequest : Request :=
  { authorizationValues := [], cookies := [], ctx := [] }

/-- An empty registry at the `issuer.Claims` type. -/
def emptyABTClaims : AuthorizationBearerToken ClaimsVal := { issuers := [] }

/-- A handler that does nothing (for concrete middleware runs). -/
def idHandler : Handler := fun _ w => w

/-- Identity-pattern issuer producing claims (for the success-path witness). -/
def identityClaimsIssuer : Issuer ClaimsVal :=
  { matchIssuer := identityMatchIssuer
    verify := fun _ => Except.ok ()
    claims := fun _ => Except.ok (ClaimsVal.identity ClaimsBase.zero) }

/-- Registry holding only `identityClaimsIssuer`. -/
def identityOnlyABT : AuthorizationBearerToken ClaimsVal :=
  { issuers := [identityClaimsIssuer] }

/-- Collaborators under which any 2-part token decodes and peeks to
`iss = "*.fluig.io"`. -/
def fluigIssCollab : Collab :=
  { b64decode := fun _ => Except.ok []
    unmarshalIss := fun _ => Except.ok "*.fluig.io" }

end GoSdkAuth

namespace GoSdkAuth

/-- **C3, counterexample** — The `middleware` package's
`HTTPAuthorizationBearerTokenMiddleware` (`auth/middleware/middleware.go`)
calls `WriteHeader(401)` *before* setting `Content-Type`; per `net/http`,
header mutations after `WriteHeader` are not sent, so the 401 response
carries no `Content-Type: application/json; charset=utf-8` header at all
(here: no headers whatsoever).  This refutes the claim that on every core
failure the middleware's response carries that header. -/
theorem mwMiddleware_missing_content_type_cex :
    (httpMwMiddleware trivialCollab emptyABTClaims idHandler noCredRequest
        ResponseWriter.init).status = some 401 ∧
    (httpMwMiddleware trivialCollab emptyABTClaims idHandler noCredRequest
        ResponseWriter.init).headers = [] ∧
    (httpMwMiddleware trivialCollab emptyABTClaims idHandler noCredRequest
        ResponseWriter.init).body =
      "\x7b\"error\": \"header authorization not found\"\x7d" := by
  refine ⟨rfl, rfl, rfl⟩

/-- **C3, amended** — The `auth` package's
`HTTPAuthorizationBearerTokenMiddleware` (the current middleware) satisfies
the claim: on every request on which the core validation fails it responds
with status 401, the sole header `Content-Type: application/json;
charset=utf-8`, and a body parseable as JSON with a top-level `"error"`
string field, and the wrapped handler is not invoked (the response is
independent of it); on success it stores the claims in the request context
under the private key and invokes the wrapped handler on the augmented
request.  (The older `middleware` package variant instead sets
`Content-Type` only after `WriteHeader`, so that header is never sent, and
its unescaped body need not be valid JSON.) -/
theorem authMiddleware_response (cb : Collab) (abt : AuthorizationBearerToken ClaimsVal)
    (next next' : Handler) (r : Request) :
    (∀ e, isValidBearerToken cb abt r = Except.error e →
      httpAuthMiddleware cb abt next r ResponseWriter.init =
        { headers := [("Content-Type", "application/json; charset=utf-8")]
          status := some 401
          body := encodeErrorObj e } ∧
      parseErrorBody (encodeErrorObj e) = true ∧
      httpAuthMiddleware cb abt next r ResponseWriter.init =
        httpAuthMiddleware cb abt next' r ResponseWriter.init) ∧
    (∀ c, isValidBearerToken cb abt r = Except.ok c →
      httpAuthMiddleware cb abt next r ResponseWriter.init =
        next { r with ctx := r.ctx.withValue CtxKey.issuerClaims (CtxVal.claims c) }
          ResponseWriter.init) := by
  constructor
  · intro e he
    refine ⟨?_, parseErrorBody_encodeErrorObj e, ?_⟩
    · simp [httpAuthMiddleware, he, ResponseWriter.setHeader, ResponseWriter.writeHeader,
        ResponseWriter.write, ResponseWriter.init]
    · simp [httpAuthMiddleware, he]
  · intro c hc
    simp [httpAuthMiddleware, hc]

/-- Witness for `authMiddleware_response`: the error case at a request with
no credentials (401, JSON `Content-Type`, encoded body), and the success case
at a verified `Bearer h.p` token against the Identity-pattern issuer (claims
stored in the context, handler invoked). -/
theorem authMiddleware_response_witness :
    (httpAuthMiddleware trivialCollab emptyABTClaims idHandler noCredRequest
        ResponseWriter.init =
      { headers := [("Content-Type", "application/json; charset=utf-8")]
        status := some 401
        body := encodeErrorObj "authorization token not found" } ∧
     parseErrorBody (encodeErrorObj "authorization token not found") = true) ∧
    httpAuthMiddleware fluigIssCollab identityOnlyABT idHandler bearerHpRequest
        ResponseWriter.init =
      idHandler { bearerHpRequest with
        ctx := bearerHpRequest.ctx.withValue CtxKey.issuerClaims
          (CtxVal.claims (ClaimsVal.identity ClaimsBase.zero)) } ResponseWriter.init := by
  refine ⟨⟨?_, ?_⟩, ?_⟩
  · exact ((authMiddleware_response trivialCollab emptyABTClaims idHandler idHandler
      noCredRequest).1 "authorization token not found" rfl).1
  · exact ((authMiddleware_response trivialCollab emptyABTClaims idHandler idHandler
      noCredRequest).1 "authorization token not found" rfl).2.1
  · exact (authMiddleware_response fluigIssCollab identityOnlyABT idHandler idHandler
      bearerHpRequest).2 (ClaimsVal.identity ClaimsBase.zero) rfl

end GoSdkAuth
